import Mathlib

/-!
Verification of the `wikia` client library (`src/wikia/wikia.py`) against its
natural-language specification.  The Python module is shallowly embedded:
module-level globals become explicit parameters, network responses are supplied
by an environment function, and raised Python exceptions become `Except` errors.
-/

namespace Wikia

/-- Request parameters: the Python dict of query parameters, as an association
list with string keys and string values (the order of the literal keys follows
the source). -/
abbrev Params := List (String × String)

/-- The Python exceptions the embedded code can raise.  `PageError`,
`RedirectError`, `DisambiguationError`, `HTTPTimeoutError` and `WikiaError` are
the library exception types; `valueError`, `keyError`, `attributeError`,
`nameError`, `indexError` and `assertionError` are the builtin Python
exceptions the code can raise.  `outOfFuel` is a model artifact used only when
the fuel of the redirect-reload recursion runs out; the theorems below never
exhaust the fuel. -/
inductive PyExc where
  | valueError (msg : String)
  | keyError (key : String)
  | attributeError (attr : String)
  | nameError (missing : String)
  | indexError
  | assertionError (msg : String)
  | pageError (title : Option String) (pageid : Option Int)
  | redirectError (title : String)
  | disambiguationError (title : String) (mayReferTo : List String)
  | httpTimeoutError (query : String)
  | wikiaError (msg : String)
  | outOfFuel
deriving DecidableEq

/-- Looks a key up in a parameter mapping, like Python dict access on the
association list model. -/
def lookupParam (params : Params) (key : String) : Option String :=
  (params.find? (fun kv => kv.1 == key)).map (fun kv => kv.2)

/-- Models line 557, `api_url = API_URL.format(**params)` where `API_URL` is
the template with fields lang, sub_wikia and action (line 15).  Python
`str.format` raises `KeyError` on the first template field, in template order,
that is absent from the parameter mapping. -/
def formatApiUrl (params : Params) : Except PyExc String :=
  match lookupParam params "lang" with
  | none => .error (.keyError "lang")
  | some lang =>
    match lookupParam params "sub_wikia" with
    | none => .error (.keyError "sub_wikia")
    | some sub =>
      match lookupParam params "action" with
      | none => .error (.keyError "action")
      | some action =>
        .ok ("http://" ++ lang ++ sub ++ ".wikia.com/api/v1/" ++ action)

/-- The body the transport hands back for one request: either not decodable as
JSON, or a decoded value that may carry the error envelope.  Per spec section 6
the envelope carries message, code and details in that fixed order, matching
the tuple unpacking on line 587 of the source. -/
inductive GatewayBody (α : Type) where
  | notJson
  | errorEnvelope (message : String) (code : Int) (details : String)
  | payload (value : α)
deriving DecidableEq

/-- Models `_wiki_request` (lines 549-591) minus the rate-limit gate, which is
timing behaviour and is modelled separately by `dispatchTime` below.  The
environment `env` supplies the decoded body the transport returns for given
parameters.

Two slips of the source are embedded faithfully:
* line 581 executes `raise WikiaError(msg).format(url=..., params=...)`; the
  `.format` call is made on the exception object, which has no such method, so
  Python raises `AttributeError` and never interpolates the URL or parameters;
* line 589 executes `raise HTTPTimeoutError(query)` where the name `query` is
  not defined anywhere in `_wiki_request`, so Python raises `NameError`. -/
def wikiRequest {α : Type} (env : Params → GatewayBody α) (params : Params) :
    Except PyExc α :=
  match formatApiUrl params with
  | .error e => .error e
  | .ok _apiUrl =>
    match env params with
    | .notJson => .error (.attributeError "format")
    | .errorEnvelope message code details =>
      if code == 408 then .error (.nameError "query")
      else .error (.wikiaError
        ("Error (" ++ toString code ++ ") " ++ message ++ ": " ++ details ++ " "))
    | .payload value => .ok value

/-! ### Rate limiting (lines 19-21, 48-77, 563-575)

Wall-clock instants and durations are microseconds (the resolution of Python
`timedelta`), as natural numbers. -/

/-- The three rate-limit globals: `RATE_LIMIT`, `RATE_LIMIT_MIN_WAIT` and
`RATE_LIMIT_LAST_CALL`.  The latter two are `None` (here `none`) until rate
limiting is enabled, respectively until the first gated call. -/
structure RateState where
  rateLimit : Bool
  minWaitUs : Option Nat
  lastCallUs : Option Nat
deriving DecidableEq

/-- Models `set_rate_limiting` (lines 48-77): stores the flag, stores the
minimum wait only when enabling, and resets the last-call timestamp. -/
def set_rate_limiting (rate_limit : Bool) (min_wait : Nat) : RateState :=
  { rateLimit := rate_limit,
    minWaitUs := if rate_limit then some min_wait else none,
    lastCallUs := none }

/-- Models line 570, `time.sleep(int(wait_time.total_seconds()))`: the pending
wait is truncated by `int(...)` to a whole number of seconds before sleeping. -/
def sleepWholeSeconds (waitUs : Nat) : Nat :=
  waitUs / 1000000 * 1000000

/-- Models lines 563-572: the instant at which the request is dispatched, given
the wall clock `nowUs` at entry.  When rate limiting is on, a last call exists
and its timestamp plus the minimum wait is still in the future, the thread
sleeps for the truncated wait; otherwise it dispatches immediately. -/
def dispatchTime (s : RateState) (nowUs : Nat) : Nat :=
  match s.rateLimit, s.lastCallUs, s.minWaitUs with
  | true, some last, some minWait =>
    if last + minWait > nowUs then
      nowUs + sleepWholeSeconds (last + minWait - nowUs)
    else nowUs
  | _, _, _ => nowUs

/-- Models lines 574-575: `RATE_LIMIT_LAST_CALL` is set to the dispatch instant
only when `RATE_LIMIT` is enabled. -/
def afterDispatch (s : RateState) (dispatchUs : Nat) : RateState :=
  if s.rateLimit then { s with lastCallUs := some dispatchUs } else s

/-! ### Page resolution (`WikiaPage.__init__` and `WikiaPage.__load`,
lines 197-310)

The object attributes `title`, `original_title`, `pageid` and `url` are each
`Option`-valued: `none` models the attribute not being set on the instance
(`hasattr` false / `AttributeError` on access). -/

/-- The attribute state of a `WikiaPage` instance. -/
structure PageObj where
  sub_wikia : String
  title : Option String
  original_title : Option String
  pageid : Option Int
  url : Option String
deriving DecidableEq

/-- One entry of the `redirects` list of the details response; `source` and
`target` stand for the Python keys `from` and `to`. -/
structure RedirectEntry where
  source : String
  target : String
deriving DecidableEq

/-- One entry of the `normalized` list of the details response; `source` and
`target` stand for the Python keys `from` and `to`. -/
structure NormalizedEntry where
  source : String
  target : String
deriving DecidableEq

/-- The single item of `request['items']` that `__load` inspects (the source
binds it to both `query` and `page`, line 252-254).  Booleans model key
presence checks (`'missing' in page`, `'pageprops' in page`); the `Option`
fields model the presence of the `redirects` and `normalized` keys. -/
structure DetailsQuery where
  id : Int
  title : String
  missing : Bool
  redirects? : Option (List RedirectEntry)
  normalized? : Option (List NormalizedEntry)
  pageprops : Bool
deriving DecidableEq

/-- Python truthiness of `getattr(self, 'pageid', None)` on line 241: `None`
and `0` are falsy, every other int is truthy. -/
def pyTruthyInt : Option Int → Bool
  | some n => n != 0
  | none => false

/-- String rendering of an optional int attribute placed into request
parameters (Python later serializes the value). -/
def optIntStr : Option Int → String
  | some n => toString n
  | none => "None"

/-- The parameter mapping built on lines 236-244 for the details lookup. -/
def detailsParams (lang sub key value : String) : Params :=
  [("action", "Articles/Details?/"), ("sub_wikia", sub), ("lang", lang),
   (key, value)]

/-- The assertion message `ODD_ERROR_MESSAGE` imported from
`wikia/exceptions.py`.  Modelled from the spec: that file is not under `src/`;
per spec section 4.2 the resolver must fail loudly on an inconsistent API
response, and the exact message text is immaterial to every claim. -/
def ODD_ERROR_MESSAGE : String :=
  "An odd error occurred; please report this upstream"

/-- The browsing URL built from `STANDARD_URL` (lines 17, 309-310). -/
def standardUrl (lang sub page : String) : String :=
  "http://" ++ lang ++ sub ++ ".wikia.com/wiki/" ++ page

/-- Models lines 207-211 of `__init__`: an `AttributeError` escaping `__load`
is converted to a `WikiaError`; every other exception propagates unchanged. -/
def wrapInitAttr (name : String) (r : Except PyExc PageObj) :
    Except PyExc PageObj :=
  match r with
  | .error (.attributeError _) =>
    .error (.wikiaError ("Could not locate page " ++ name))
  | other => other

/-- Models `WikiaPage.__load` (lines 229-310).  `recInit` stands for the bound
method `self.__init__` that line 281 re-invokes on redirect; its arguments are,
in order, the positional `sub_wikia`, then `title`, `pageid`, `redirect`,
`preload`, `original_title`.  Network responses come from `env`; the payload of
a details request is the list `request['items'].values()`.

Embedded faithfully from the source:
* line 281 passes `redirects['to']` as the first positional argument of
  `__init__`, which is `sub_wikia`, leaving `title` and `pageid` at `None`;
* the second lookup of the disambiguation branch (lines 290-297) builds its
  parameters from only `lang` plus `pageids`/`titles`, so `API_URL.format`
  inside `_wiki_request` raises `KeyError` for the `sub_wikia` field before any
  candidate extraction can happen; the `disambiguationError` arm after it is
  unreachable and stands for the HTML-scraping tail of the branch
  (lines 298-304), whose list filtering is modelled by `mayReferTo` below;
* the `except IndexError` of lines 246-251 guards only the request call, which
  in this model never raises `IndexError`, so no handler is embedded for it. -/
def pageLoadCore
    (recInit : String → Option String → Option Int → Bool → Bool → String →
      Except PyExc PageObj)
    (lang : String) (env : Params → GatewayBody (List DetailsQuery))
    (self : PageObj) (redirect preload : Bool) : Except PyExc PageObj :=
  let qpE : Except PyExc Params :=
    if pyTruthyInt self.pageid then
      .ok (detailsParams lang self.sub_wikia "ids" (optIntStr self.pageid))
    else
      match self.title with
      | some t => .ok (detailsParams lang self.sub_wikia "titles" t)
      | none => .error (.attributeError "title")
  match qpE with
  | .error e => .error e
  | .ok query_params =>
    match wikiRequest env query_params with
    | .error e => .error e
    | .ok items =>
      match items with
      | [] => .error .indexError
      | query :: _ =>
        if query.missing then
          match self.title with
          | some t => .error (.pageError (some t) none)
          | none => .error (.pageError none self.pageid)
        else match query.redirects? with
        | some redirectsList =>
          if redirect then
            match redirectsList with
            | [] => .error .indexError
            | redirects :: _ =>
              let fromE : Except PyExc String :=
                match query.normalized? with
                | some [] => .error .indexError
                | some (normalized :: _) =>
                  match self.title with
                  | some t =>
                    if normalized.source == t then .ok normalized.target
                    else .error (.assertionError ODD_ERROR_MESSAGE)
                  | none => .error (.attributeError "title")
                | none =>
                  match self.title with
                  | some t => .ok t
                  | none => .error (.attributeError "title")
              match fromE with
              | .error e => .error e
              | .ok from_title =>
                if redirects.source == from_title then
                  recInit redirects.target none none redirect preload ""
                else .error (.assertionError ODD_ERROR_MESSAGE)
          else .error (.redirectError (self.title.getD query.title))
        | none =>
          if query.pageprops then
            let qp2 : Params :=
              if self.pageid.isSome then
                [("lang", lang), ("pageids", optIntStr self.pageid)]
              else
                [("lang", lang), ("titles", self.title.getD "")]
            match wikiRequest env qp2 with
            | .error e => .error e
            | .ok _html =>
              .error (.disambiguationError (self.title.getD query.title) [])
          else
            .ok { self with
                  pageid := some query.id,
                  title := some query.title.toLower,
                  url :=
                    some (standardUrl lang self.sub_wikia query.title.toLower) }

/-- Models `WikiaPage.__init__` (lines 197-214) together with the
`__init__`/`__load` mutual recursion of line 281, bounded by `fuel`.  The
Python recursion has no depth bound; the theorems below never exhaust the
fuel.  The facet preloading loop of lines 212-214 only triggers extra facet
fetches and is outside every claim, so it is not modelled. -/
def initAux (lang : String) (env : Params → GatewayBody (List DetailsQuery)) :
    Nat → String → Option String → Option Int → Bool → Bool → String →
      Except PyExc PageObj
  | 0, _, _, _, _, _, _ => .error .outOfFuel
  | fuel + 1, sub_wikia, title, pageid, redirect, preload, original_title =>
    match title, pageid with
    | some t, _ =>
      wrapInitAttr t
        (pageLoadCore (initAux lang env fuel) lang env
          { sub_wikia := sub_wikia, title := some t,
            original_title :=
              some (if original_title == "" then t else original_title),
            pageid := none, url := none }
          redirect preload)
    | none, some pid =>
      wrapInitAttr (optIntStr (some pid))
        (pageLoadCore (initAux lang env fuel) lang env
          { sub_wikia := sub_wikia, title := none, original_title := none,
            pageid := some pid, url := none }
          redirect preload)
    | none, none =>
      .error (.valueError "Either a title or a pageid must be specified")

/-- Entry point of page resolution: `WikiaPage(sub_wikia, title, pageid, ...)`
with the module global `LANG` passed explicitly and responses from `env`. -/
def pageInit (lang : String) (env : Params → GatewayBody (List DetailsQuery))
    (fuel : Nat) (sub_wikia : String) (title : Option String)
    (pageid : Option Int) (redirect preload : Bool) (original_title : String) :
    Except PyExc PageObj :=
  initAux lang env fuel sub_wikia title pageid redirect preload original_title

/-- A details response reporting a redirect from Dog to Canine, as the
environment of every request. -/
def redirectEnv : Params → GatewayBody (List DetailsQuery) :=
  fun _ => .payload
    [{ id := 7, title := "Canine", missing := false,
       redirects? := some [{ source := "Dog", target := "Canine" }],
       normalized? := none, pageprops := false }]

/-- C1: the claim states that with redirect following enabled the resolver
re-enters resolution with the redirect target title and terminates in the
resolved target page.  The source instead passes the redirect target as the
first positional argument of `self.__init__` (line 281), which is `sub_wikia`,
leaving `title` and `pageid` at `None`, so the re-entered `__init__` raises
`ValueError` (line 204) and no page is ever resolved. -/
theorem redirect_reload_valueError :
    pageInit "" redirectEnv 3 "dogs" (some "Dog") none true false "" =
      .error (.valueError "Either a title or a pageid must be specified") := by
  rfl

/-- A details response flagged missing, as the environment of every request. -/
def missingEnv : Params → GatewayBody (List DetailsQuery) :=
  fun _ => .payload
    [{ id := -1, title := "", missing := true,
       redirects? := none, normalized? := none, pageprops := true }]

/-- The details parameter mapping always carries the three URL-template
fields, so the URL build of `_wiki_request` succeeds on it. -/
theorem formatApiUrl_detailsParams (lang sub key value : String) :
    formatApiUrl (detailsParams lang sub key value) =
      .ok ("http://" ++ lang ++ sub ++ ".wikia.com/api/v1/" ++
        "Articles/Details?/") := by
  simp [formatApiUrl, detailsParams, lookupParam, List.find?]

/-- C3: a lookup whose response item is flagged missing fails with `PageError`
identifying exactly the requested title (by-title resolution) or the requested
numeric id (by-id resolution), and no page object is produced. -/
theorem missing_yields_pageError
    (lang sub t : String) (pid : Int) (fuel : Nat)
    (envT envI : Params → GatewayBody (List DetailsQuery))
    (qt qi : DetailsQuery) (red pre : Bool)
    (hqt : qt.missing = true) (hqi : qi.missing = true)
    (ht : envT (detailsParams lang sub "titles" t) = .payload [qt])
    (hi : envI (detailsParams lang sub "ids" (toString pid)) = .payload [qi])
    (hpid : pid ≠ 0) :
    pageInit lang envT (fuel + 1) sub (some t) none red pre "" =
      .error (.pageError (some t) none) ∧
    pageInit lang envI (fuel + 1) sub none (some pid) red pre "" =
      .error (.pageError none (some pid)) := by
  have hbne : (pid != 0) = true := bne_iff_ne.mpr hpid
  constructor
  · simp [pageInit, initAux, pageLoadCore, pyTruthyInt, wikiRequest,
      formatApiUrl_detailsParams, ht, hqt, wrapInitAttr]
  · simp [pageInit, initAux, pageLoadCore, pyTruthyInt, optIntStr, hbne,
      wikiRequest, formatApiUrl_detailsParams, hi, hqi, wrapInitAttr]

/-- Witness for C3 at a concrete missing response. -/
theorem missing_yields_pageError_w :
    pageInit "" missingEnv 1 "w" (some "X") none true false "" =
      .error (.pageError (some "X") none) ∧
    pageInit "" missingEnv 1 "w" none (some 3) true false "" =
      .error (.pageError none (some 3)) :=
  missing_yields_pageError "" "w" "X" 3 0 missingEnv missingEnv
    { id := -1, title := "", missing := true, redirects? := none,
      normalized? := none, pageprops := true }
    { id := -1, title := "", missing := true, redirects? := none,
      normalized? := none, pageprops := true }
    true false rfl rfl rfl rfl (by decide)

/-- One list item scraped from the disambiguation markup: its class attribute
list and the text of its anchor, when it has one. -/
structure ListItem where
  classes : List String
  anchorText : Option String
deriving DecidableEq

/-- Substring test used to model the Python `in` containment check on the
joined class string of a list item (line 301). -/
def strContains (s pat : String) : Bool :=
  (s.splitOn pat).length != 1

/-- Models lines 300-302: keep the list items whose joined class string does
not contain "tocsection", then collect the anchor text of those that have an
anchor, in document order.  The source never reaches this code (see
`disambiguation_keyError`); it is included as the embedding of the candidate
extraction the claim describes. -/
def mayReferTo (lis : List ListItem) : List String :=
  ((lis.filter (fun li => !(strContains (String.join li.classes) "tocsection"))).filterMap
    (fun li => li.anchorText))

/-- A details response carrying disambiguation page properties, as the
environment of every request. -/
def disambigEnv : Params → GatewayBody (List DetailsQuery) :=
  fun _ => .payload
    [{ id := 5, title := "Mercury", missing := false,
       redirects? := none, normalized? := none, pageprops := true }]

/-- C4: the claim states that a lookup whose response carries disambiguation
page properties fails with a `DisambiguationError` listing the anchor texts of
the non-table-of-contents list items.  The source instead builds the follow-up
request of lines 290-297 from only `lang` and `titles`/`pageids`, so
`API_URL.format` raises `KeyError` for its `sub_wikia` field (line 557) before
the markup is ever fetched, and no `DisambiguationError` is raised. -/
theorem disambiguation_keyError :
    pageInit "" disambigEnv 3 "planets" (some "Mercury") none true false "" =
      .error (.keyError "sub_wikia") := by
  rfl

/-- Parameters containing the three URL-template fields. -/
def plainParams : Params := [("lang", ""), ("sub_wikia", "w"), ("action", "a")]

/-- An environment whose response body is not JSON. -/
def envNotJson : Params → GatewayBody Nat := fun _ => .notJson

/-- C7: the claim states that a response body that fails to decode as JSON
surfaces as a typed `WikiaError` whose message carries the URL and parameters.
The source instead executes `raise WikiaError(msg).format(url=..., params=...)`
(lines 581-584): the `.format` call is made on the exception object, which has
no such method, so an `AttributeError` is raised and the URL and parameters are
never interpolated into any message. -/
theorem request_notJson_attributeError :
    wikiRequest envNotJson plainParams = .error (.attributeError "format") := by
  rfl

/-- An environment answering with an error envelope carrying the timeout
code. -/
def env408 : Params → GatewayBody Nat :=
  fun _ => .errorEnvelope "request took too long" 408 "details"

/-- An environment answering with an error envelope carrying a non-timeout
code. -/
def env500 : Params → GatewayBody Nat :=
  fun _ => .errorEnvelope "oops" 500 "det"

/-- C8: the claim states that an error envelope with status code 408 surfaces
as `HTTPTimeoutError`.  The source instead executes
`raise HTTPTimeoutError(query)` (line 589) where the name `query` is undefined
in `_wiki_request`, so a `NameError` is raised.  The second conjunct records
the non-timeout half of the claim, which the code honours: any other code
surfaces as a generic error carrying code, message and details verbatim. -/
theorem request_envelope_errors :
    wikiRequest env408 plainParams = .error (.nameError "query") ∧
    wikiRequest env500 plainParams =
      .error (.wikiaError "Error (500) oops: det ") := by
  exact ⟨rfl, rfl⟩

/-- C2: the claim states that with rate limiting enabled and a 50ms minimum
interval, a second gated request is dispatched at least 50ms after the first.
The source truncates the pending wait to whole seconds (line 570,
`int(wait_time.total_seconds())`), so a sub-second wait sleeps zero seconds:
with the first call dispatched at 0 and the second entering the gate at 10ms,
the second is dispatched at 10ms, violating the 50ms spacing.  The last
conjunct records the (correct) disabled case: no artificial delay. -/
theorem rate_limit_no_spacing :
    dispatchTime (afterDispatch (set_rate_limiting true 50000) 0) 10000 = 10000 ∧
    10000 - 0 < 50000 ∧
    dispatchTime (afterDispatch (set_rate_limiting false 50000) 0) 10000 = 10000 := by
  decide

/-! ### Continuation cursor (`WikiaPage.__continued_query`, lines 312-341) -/

/-- One response of a paginated query.  `pages?` models the presence of the
top-level `query` results container, holding the items this response
contributes (in generator mode all of `pages.values()`, otherwise the
sub-collection `pages[self.pageid][prop]`); `cont?` models the presence of the
`continue` token mapping that is merged into the next request. -/
structure ContResponse (α : Type) where
  pages? : Option (List α)
  cont? : Option Params
deriving DecidableEq

/-- Models the `while True` loop of lines 321-341 over the queue of responses
the server returns to successive requests.  Returns the items yielded, in
arrival order, paired with the number of requests issued.  Each iteration
consumes one response; the loop breaks before yielding when the results
container is absent, and breaks after yielding when the continuation token is
absent. -/
def continuedQuery {α : Type} : List (ContResponse α) → List α × Nat
  | [] => ([], 0)
  | r :: rest =>
    match r.pages? with
    | none => ([], 1)
    | some items =>
      match r.cont? with
      | none => (items, 1)
      | some _ =>
        (items ++ (continuedQuery rest).1, (continuedQuery rest).2 + 1)

/-- Draining a prefix of responses that all carry both the results container
and a continuation token yields those responses' items followed by whatever
the rest of the queue yields, with one request per prefix response. -/
theorem continuedQuery_append {α : Type} (rs rest : List (ContResponse α))
    (h : ∀ r ∈ rs, r.pages? ≠ none ∧ r.cont? ≠ none) :
    continuedQuery (rs ++ rest) =
      ((rs.map (fun r => r.pages?.getD [])).flatten ++ (continuedQuery rest).1,
       rs.length + (continuedQuery rest).2) := by
  induction rs with
  | nil => simp
  | cons r rs ih =>
    obtain ⟨hq, hc⟩ := h r (List.mem_cons_self r rs)
    obtain ⟨items, hq'⟩ := Option.ne_none_iff_exists'.mp hq
    obtain ⟨c, hc'⟩ := Option.ne_none_iff_exists'.mp hc
    have ih' := ih (fun x hx => h x (List.mem_cons_of_mem r hx))
    simp [continuedQuery, hq', hc', ih']
    omega

/-- C5: for a response sequence whose non-final responses each carry the
results container and a continuation token and whose final response carries
the container but omits the token, draining yields the concatenation of all
the responses' items in arrival order and issues exactly one request per
response — none for the queue `rest` beyond the final response.  Moreover, as
soon as any response lacks the results container, draining ends immediately
with the items already yielded and issues no further request. -/
theorem continuedQuery_drains {α : Type} (rs rest : List (ContResponse α))
    (last : ContResponse α) (items : List α)
    (hall : ∀ r ∈ rs, r.pages? ≠ none ∧ r.cont? ≠ none)
    (hlastq : last.pages? = some items) (hlastc : last.cont? = none) :
    (continuedQuery (rs ++ last :: rest) =
      ((rs.map (fun r => r.pages?.getD [])).flatten ++ items, rs.length + 1)) ∧
    ∀ (pre tl : List (ContResponse α)) (bad : ContResponse α),
      (∀ r ∈ pre, r.pages? ≠ none ∧ r.cont? ≠ none) → bad.pages? = none →
      continuedQuery (pre ++ bad :: tl) =
        ((pre.map (fun r => r.pages?.getD [])).flatten, pre.length + 1) := by
  constructor
  · rw [continuedQuery_append rs (last :: rest) hall]
    simp [continuedQuery, hlastq, hlastc]
  · intro pre tl bad hpre hbad
    rw [continuedQuery_append pre (bad :: tl) hpre]
    simp [continuedQuery, hbad]

/-- A first page with two items and a continuation token. -/
def contPage1 : ContResponse Nat :=
  { pages? := some [1, 2], cont? := some [("continue", "p2")] }

/-- A second page with one item and a continuation token. -/
def contPage2 : ContResponse Nat :=
  { pages? := some [3], cont? := some [("continue", "p3")] }

/-- A final page with two items and no continuation token. -/
def contPage3 : ContResponse Nat :=
  { pages? := some [4, 5], cont? := none }

/-- A response lacking the top-level results container. -/
def contPageNoQuery : ContResponse Nat :=
  { pages? := none, cont? := some [("continue", "p9")] }

/-- Witness for C5: the synthetic three-page sequence of the spec drains to
the union of the three pages' items in arrival order with exactly three
requests, and a missing results container on page two stops draining after two
requests with only page one's items. -/
theorem continuedQuery_drains_w :
    continuedQuery ([contPage1, contPage2] ++ contPage3 :: []) =
      ([1, 2, 3, 4, 5], 3) ∧
    continuedQuery ([contPage1] ++ contPageNoQuery :: [contPage3]) =
      ([1, 2], 2) := by
  have h := continuedQuery_drains [contPage1, contPage2] [] contPage3 [4, 5]
    (by decide) rfl rfl
  constructor
  · have h1 := h.1
    simpa [contPage1, contPage2, contPage3] using h1
  · have h2 := h.2 [contPage1] [contPage3] contPageNoQuery (by decide) rfl
    simpa [contPage1, contPageNoQuery] using h2

/-! ### Result cache and `set_lang` (lines 25-33, 80, 134, 516) -/

/-- Modelled from the spec: the stored entries of one cache-wrapped function.
The `cache` decorator lives in `wikia/util.py`, which is not under `src/`; per
spec section 4.4 a wrapped function stores one entry per argument signature and
`clear_cache` discards all of its stored entries.  Keys are the serialized
ordered argument signatures, values the stored results. -/
abbrev CacheEntries := List (String × String)

/-- Modelled from the spec: `clear_cache` discards every stored entry of the
wrapped function it is invoked on. -/
def clear_cache (_entries : CacheEntries) : CacheEntries := []

/-- Modelled from the spec: a call of a cache-wrapped function first consults
the stored entries under its argument signature; a hit returns the stored
result, a miss performs a fresh computation. -/
def cachedLookup (entries : CacheEntries) (sig : String) : Option String :=
  (entries.find? (fun e => e.1 == sig)).map (fun e => e.2)

/-- The stored entries of the three cache-wrapped functions of the module:
`search` (line 80), `summary` (line 134) and `languages` (line 516). -/
structure ModuleCaches where
  search : CacheEntries
  summary : CacheEntries
  languages : CacheEntries
deriving DecidableEq

/-- The module state `set_lang` touches: the global `LANG` and the caches. -/
structure GlobalState where
  lang : String
  caches : ModuleCaches
deriving DecidableEq

/-- Models `set_lang` (lines 25-33): `LANG` becomes the lowercased language
followed by a dot when the argument is truthy, else the empty string, and then
line 32 iterates `clear_cache` over the tuple `(search, summary)` — and over
nothing else. -/
def set_lang (language : String) (g : GlobalState) : GlobalState :=
  { lang := if language != "" then language.toLower ++ "." else "",
    caches :=
      { search := clear_cache g.caches.search,
        summary := clear_cache g.caches.summary,
        languages := g.caches.languages } }

/-- A cache state in which the cache-wrapped `languages` function has a stored
entry. -/
def exGlobal : GlobalState :=
  { lang := "",
    caches := { search := [("q", "r")], summary := [("s", "t")],
                languages := [("()", "en-list")] } }

/-- Counterexample for C6: after `set_lang`, the cache-wrapped `languages`
function still holds its stored entry, so its next call with the same argument
signature returns the stored result instead of performing a fresh computation.
This refutes the claim that the stored entries of every cache-wrapped function
are discarded. -/
theorem set_lang_misses_languages_cex :
    (set_lang "en" exGlobal).caches.languages ≠ [] ∧
    cachedLookup (set_lang "en" exGlobal).caches.languages "()" =
      some "en-list" := by
  decide

/-- C6 (amended): changing the language via `set_lang` discards the stored
entries of the cache-wrapped `search` and `summary` functions, so their next
calls with any argument signature perform a fresh computation; the
cache-wrapped `languages` function is left untouched. -/
theorem set_lang_clears_search_summary (language : String) (g : GlobalState) :
    (set_lang language g).caches.search = [] ∧
    (set_lang language g).caches.summary = [] ∧
    (set_lang language g).caches.languages = g.caches.languages := by
  simp [set_lang, clear_cache]

/-! ### Section content (`WikiaPage.sections` and `WikiaPage.section`,
lines 469-514) -/

/-- One content segment of a section of the AsSimpleJson response. -/
structure ContentSegment where
  type : String
  text : String
deriving DecidableEq

/-- One section of the AsSimpleJson response. -/
structure SimpleSection where
  title : String
  content : List ContentSegment
deriving DecidableEq

/-- Models the `sections` property (lines 469-486): the titles of the
response's sections. -/
def pageSections (sections : List SimpleSection) : List String :=
  sections.map (fun s => s.title)

/-- Models the comparison `section == section_title` on line 511: `section` is
bound to the section dict of the response and `section_title` to a string, and
Python equality between a dict and a string is always `False`. -/
def pyEqDictStr (_sec : SimpleSection) (_s : String) : Bool := false

/-- Models `WikiaPage.section` (lines 488-514): `None` when the name is not
among the section titles; otherwise the newline join of the paragraph segment
texts of the sections accepted by the line-511 comparison. -/
def pageSection (sections : List SimpleSection) (section_title : String) :
    Option String :=
  if (pageSections sections).contains section_title then
    some (String.intercalate "\n"
      (((sections.filter (fun sec => pyEqDictStr sec section_title)).map
        (fun sec =>
          (sec.content.filter (fun seg => seg.type == "paragraph")).map
            (fun seg => seg.text))).flatten))
  else none

/-- The behaviour the spec describes for `section(name)`: the concatenation of
the paragraph segments of exactly the section whose title matches. -/
def pageSectionSpec (sections : List SimpleSection) (section_title : String) :
    Option String :=
  if (pageSections sections).contains section_title then
    some (String.intercalate "\n"
      (((sections.filter (fun sec => sec.title == section_title)).map
        (fun sec =>
          (sec.content.filter (fun seg => seg.type == "paragraph")).map
            (fun seg => seg.text))).flatten))
  else none

/-- A page with one section titled Intro holding one paragraph segment. -/
def exSections : List SimpleSection :=
  [{ title := "Intro",
     content := [{ type := "paragraph", text := "hello" }] }]

/-- C9: the claim states that `section(name)` for a present name returns the
concatenation of that section's paragraph segments.  Line 511 compares the
section dict itself against the title string, which is always `False` in
Python, so the filter accepts no section and the method returns the empty
string for every present name — here `some ""` where the spec-described
behaviour yields `some "hello"`.  (The absent-name half of the claim, returning
`None`, is honoured by line 499-500 and by this model.) -/
theorem section_always_empty :
    pageSection exSections "Intro" = some "" ∧
    pageSectionSpec exSections "Intro" = some "hello" ∧
    pageSection exSections "Absent" = none := by
  decide

/-! ### Page equality (`WikiaPage.__eq__`, lines 219-227) -/

/-- The attributes `__eq__` touches, on either operand.  A `none` field models
the attribute being absent on that object, so `other` ranges over arbitrary
Python values: accessing a missing attribute raises `AttributeError`, which the
bare `except` of line 226 converts to `False`.  The comparison itself is total,
so the embedding is a total boolean function: no outcome raises. -/
structure PyObjAttrs where
  pageid : Option Int
  title : Option String
  url : Option String
deriving DecidableEq

/-- Models `WikiaPage.__eq__` (lines 219-227): the conjunction of the three
attribute comparisons, evaluated left to right with Python short-circuiting;
any missing attribute surfaces as `AttributeError` and is caught, giving
`false`. -/
def wikiaPageEq (self other : PyObjAttrs) : Bool :=
  match self.pageid, other.pageid with
  | some p1, some p2 =>
    p1 == p2 &&
      (match self.title, other.title with
       | some t1, some t2 =>
         t1 == t2 &&
           (match self.url, other.url with
            | some u1, some u2 => u1 == u2
            | _, _ => false)
       | _, _ => false)
  | _, _ => false

/-- C10: equality comparison never raises (it is a total boolean function),
returns `true` exactly when both sides carry all three of `pageid`, `title`
and `url` with equal values, and returns `false` whenever any of the three
attributes is absent on either side. -/
theorem wikiaPageEq_spec (a b : PyObjAttrs) :
    (wikiaPageEq a b = true ↔
      ((∃ p, a.pageid = some p ∧ b.pageid = some p) ∧
       (∃ t, a.title = some t ∧ b.title = some t) ∧
       (∃ u, a.url = some u ∧ b.url = some u))) ∧
    ((a.pageid = none ∨ b.pageid = none ∨ a.title = none ∨ b.title = none ∨
      a.url = none ∨ b.url = none) → wikiaPageEq a b = false) := by
  obtain ⟨p1, t1, u1⟩ := a
  obtain ⟨p2, t2, u2⟩ := b
  cases p1 <;> cases p2 <;> cases t1 <;> cases t2 <;> cases u1 <;> cases u2 <;>
    simp [wikiaPageEq]
  exact ⟨fun h => ⟨h.1.symm, h.2.1.symm, h.2.2.symm⟩,
         fun h => ⟨h.1.symm, h.2.1.symm, h.2.2.symm⟩⟩

end Wikia
